import Mathlib

/-!
LED character driver with single-admission open (`spinlock.c`).

A shallow embedding of the driver in `src/spinlock.c`.  The driver keeps one
global `led_dev`; its file operations `led_open`, `led_write`, `led_release`
and the module entry points `led_init`, `led_exit` are embedded as functions
on an explicit state.  Each file operation runs its critical section under
`spin_lock_irqsave`, so one call is one atomic step of the state.

The kernel services the driver calls (chrdev region, cdev, class, device,
device tree lookup, gpiolib) are outside the repository.  They are modelled
by a record of what the kernel currently holds for the driver, together with
a `Probe` record fixing the outcome of every fallible service during
`led_init`.
-/

namespace Spinlock

/-! ## Constants -/

/-- Errno `EFAULT`. -/
def EFAULT : Int := 14

/-- Errno `EBUSY`. -/
def EBUSY : Int := 16

/-- Command byte `LED_ON` (line 15). -/
def LED_ON : Nat := 1

/-- Command byte `LED_OFF` (line 16). -/
def LED_OFF : Nat := 0

/-- Number of minor bits of a `dev_t` (kernel `MINORBITS`). -/
def MINORBITS : Nat := 20

/-- Kernel `MKDEV(ma, mi)`, stored into the 32-bit `dev_t`. -/
def MKDEV (ma mi : Int) : Nat :=
  ((((ma % 2 ^ 32).toNat <<< MINORBITS) ||| (mi % 2 ^ 32).toNat)) % 2 ^ 32

/-- Kernel `MAJOR(dev)`. -/
def MAJOR (dev : Nat) : Int := ((dev >>> MINORBITS : Nat) : Int)

/-- Kernel `MINOR(dev)`. -/
def MINOR (dev : Nat) : Int := ((dev &&& (2 ^ MINORBITS - 1) : Nat) : Int)

/-- Value of a C `int` after an arithmetic step: two's complement wrap to 32 bits. -/
def wrap_int (x : Int) : Int := (x + 2 ^ 31) % 2 ^ 32 - 2 ^ 31

/-! ## Data model -/

/-- Resources the kernel hands out to the driver during `led_init`. -/
inductive Resource where
  | chrdev_region
  | cdev
  | cls
  | device
  | gpio
  deriving DecidableEq, Repr

/-- The scalar fields of `struct led_device_struct` (lines 18-29).  The
embedded `cdev`, the `class`, `device` and `nd` pointers are represented by
the kernel-side record below; the spinlock is represented by the atomicity
of each operation. -/
structure led_device_struct where
  major : Int
  minor : Int
  devid : Nat
  led_gpio : Int
  dev_status : Int
  deriving DecidableEq, Repr

/-- What the kernel holds on behalf of the driver, and the control line.
The driver addresses a single line, the one stored in `led_gpio`, so the
record carries the reservation, direction and level of that line only.
`released` logs every release call in the order it was made (most recent
first). -/
structure Kernel where
  chrdev_region : Bool
  cdev : Bool
  cls : Bool
  device : Bool
  gpio_requested : Bool
  gpio_output : Bool
  gpio_level : Int
  released : List Resource
  deriving DecidableEq, Repr

/-- The driver global `led_dev` together with the kernel side. -/
structure State where
  dev : led_device_struct
  kernel : Kernel
  deriving DecidableEq, Repr

/-- Outcome of every fallible kernel service called by `led_init`.  An errno
field `e` stands for the return value `-e`: `0` is success, anything else a
failure. -/
structure Probe where
  chrdev_region_errno : Nat
  devid : Nat
  cdev_add_errno : Nat
  class_is_err : Bool
  device_is_err : Bool
  node_found : Bool
  named_gpio : Int
  gpio_request_errno : Nat
  gpio_direction_output_errno : Nat
  deriving DecidableEq, Repr

/-- The resources currently held, in acquisition order. -/
def held (k : Kernel) : List Resource :=
  (if k.chrdev_region then [Resource.chrdev_region] else []) ++
  (if k.cdev then [Resource.cdev] else []) ++
  (if k.cls then [Resource.cls] else []) ++
  (if k.device then [Resource.device] else []) ++
  (if k.gpio_requested then [Resource.gpio] else [])

/-! ## Kernel services -/

/-- Kernel `alloc_chrdev_region`: on success a region is registered and the
allocated device number is stored. -/
def alloc_chrdev_region (p : Probe) (s : State) : Int × State :=
  if p.chrdev_region_errno = 0 then
    (0, { dev := { s.dev with devid := p.devid },
          kernel := { s.kernel with chrdev_region := true } })
  else (-(p.chrdev_region_errno : Int), s)

/-- Kernel `register_chrdev_region` for the device number already in `devid`. -/
def register_chrdev_region (p : Probe) (s : State) : Int × State :=
  if p.chrdev_region_errno = 0 then
    (0, { s with kernel := { s.kernel with chrdev_region := true } })
  else (-(p.chrdev_region_errno : Int), s)

/-- Kernel `cdev_init` followed by `cdev_add`. -/
def cdev_add (p : Probe) (s : State) : Int × State :=
  if p.cdev_add_errno = 0 then
    (0, { s with kernel := { s.kernel with cdev := true } })
  else (-(p.cdev_add_errno : Int), s)

/-- Kernel `class_create`; the boolean is `IS_ERR` of the result. -/
def class_create (p : Probe) (s : State) : Bool × State :=
  if p.class_is_err then (true, s)
  else (false, { s with kernel := { s.kernel with cls := true } })

/-- Kernel `device_create`; the boolean is `IS_ERR` of the result. -/
def device_create (p : Probe) (s : State) : Bool × State :=
  if p.device_is_err then (true, s)
  else (false, { s with kernel := { s.kernel with device := true } })

/-- Kernel `gpio_request`. -/
def gpio_request (p : Probe) (s : State) : Int × State :=
  if p.gpio_request_errno = 0 then
    (0, { s with kernel := { s.kernel with gpio_requested := true } })
  else (-(p.gpio_request_errno : Int), s)

/-- Kernel `gpio_set_value(gpio, value)`: drives the control line. -/
def gpio_set_value (s : State) (value : Int) : State :=
  { s with kernel := { s.kernel with gpio_level := if value = 0 then 0 else 1 } }

/-- Kernel `gpio_direction_output(gpio, value)`: on success the line is an
output and is driven to `value` in the same step. -/
def gpio_direction_output (p : Probe) (s : State) (value : Int) : Int × State :=
  if p.gpio_direction_output_errno = 0 then
    (0, { s with kernel := { s.kernel with
            gpio_output := true, gpio_level := if value = 0 then 0 else 1 } })
  else (-(p.gpio_direction_output_errno : Int), s)

/-- Kernel `gpio_free`. -/
def gpio_free (s : State) : State :=
  { s with kernel := { s.kernel with
      gpio_requested := false, released := Resource.gpio :: s.kernel.released } }

/-- Kernel `device_destroy`. -/
def device_destroy (s : State) : State :=
  { s with kernel := { s.kernel with
      device := false, released := Resource.device :: s.kernel.released } }

/-- Kernel `class_destroy`. -/
def class_destroy (s : State) : State :=
  { s with kernel := { s.kernel with
      cls := false, released := Resource.cls :: s.kernel.released } }

/-- Kernel `unregister_chrdev_region`. -/
def unregister_chrdev_region (s : State) : State :=
  { s with kernel := { s.kernel with
      chrdev_region := false, released := Resource.chrdev_region :: s.kernel.released } }

/-- Kernel `copy_from_user(buf, user, 1)` into `buf[1] = {0}`: the user
buffer either yields its first byte (`some b`, return `0`) or faults
(`none`, return `1`, the number of bytes not copied). -/
def copy_from_user (user : Option (Fin 256)) : Int × Nat :=
  match user with
  | some b => (0, b.val)
  | none => (1, 0)

/-! ## File operations -/

/-- Embedding of `led_open` (lines 46-66). -/
def led_open (s : State) : Int × State :=
  if s.dev.dev_status ≠ 0 then
    (-EBUSY, s)
  else
    (0, { s with dev := { s.dev with dev_status := wrap_int (s.dev.dev_status + 1) } })

/-- Embedding of `led_write` (lines 68-96).  The `size` argument is not read
by the source. -/
def led_write (s : State) (user : Option (Fin 256)) (_size : Nat) : Int × State :=
  let (ret, buf0) := copy_from_user user
  if ret ≠ 0 then
    (-EFAULT, s)
  else if buf0 ≠ LED_OFF ∧ buf0 ≠ LED_ON then
    (-EFAULT, s)
  else if buf0 = LED_OFF then
    (ret, gpio_set_value s 1)
  else if buf0 = LED_ON then
    (ret, gpio_set_value s 0)
  else
    (ret, s)

/-- Embedding of `led_release` (lines 98-110). -/
def led_release (s : State) : Int × State :=
  (0, { s with dev := { s.dev with dev_status := wrap_int (s.dev.dev_status - 1) } })

/-! ## Module entry points -/

/-- Label `fail_region` / `success` (lines 190-192). -/
def fail_region (ret : Int) (s : State) : Int × State := (ret, s)

/-- Label `fail_cdev_add` (lines 188-189), falling through. -/
def fail_cdev_add (ret : Int) (s : State) : Int × State :=
  fail_region ret (unregister_chrdev_region s)

/-- Label `fail_class_create` (line 187), falling through. -/
def fail_class_create (ret : Int) (s : State) : Int × State :=
  fail_cdev_add ret s

/-- Label `fail_device_create` (lines 185-186), falling through. -/
def fail_device_create (ret : Int) (s : State) : Int × State :=
  fail_class_create ret (class_destroy s)

/-- Label `fail_find_node` (lines 183-184), falling through. -/
def fail_find_node (ret : Int) (s : State) : Int × State :=
  fail_device_create ret (device_destroy s)

/-- Label `fail_get_named` (line 182), falling through. -/
def fail_get_named (ret : Int) (s : State) : Int × State :=
  fail_find_node ret s

/-- Label `fail_request` (line 181), falling through. -/
def fail_request (ret : Int) (s : State) : Int × State :=
  fail_get_named ret s

/-- Label `fail_dir_set` (lines 179-180), falling through. -/
def fail_dir_set (ret : Int) (s : State) : Int × State :=
  fail_request ret (gpio_free s)

/-- Embedding of `led_init` (lines 112-193). -/
def led_init (p : Probe) (s : State) : Int × State :=
  let r1 :=
    if s.dev.major = 0 then alloc_chrdev_region p s
    else register_chrdev_region p
      { s with dev := { s.dev with devid := MKDEV s.dev.major 0 } }
  if r1.1 < 0 then fail_region r1.1 r1.2 else
  let s1 : State :=
    { r1.2 with dev := { r1.2.dev with
        major := MAJOR r1.2.dev.devid, minor := MINOR r1.2.dev.devid } }
  let r2 := cdev_add p s1
  if r2.1 < 0 then fail_cdev_add r2.1 r2.2 else
  let r3 := class_create p r2.2
  if r3.1 then fail_class_create (-EFAULT) r3.2 else
  let r4 := device_create p r3.2
  if r4.1 then fail_device_create (-EFAULT) r4.2 else
  if p.node_found = false then fail_find_node (-EFAULT) r4.2 else
  let s5 : State := { r4.2 with dev := { r4.2.dev with led_gpio := p.named_gpio } }
  if s5.dev.led_gpio < 0 then fail_get_named (-EFAULT) s5 else
  let r6 := gpio_request p s5
  if r6.1 ≠ 0 then fail_request r6.1 r6.2 else
  let r7 := gpio_direction_output p r6.2 1
  if r7.1 < 0 then fail_dir_set r7.1 r7.2 else
  let s8 := gpio_set_value r7.2 1
  let s9 : State := { s8 with dev := { s8.dev with dev_status := 0 } }
  (r7.1, s9)

/-- Embedding of `led_exit` (lines 195-202). -/
def led_exit (s : State) : State :=
  unregister_chrdev_region (class_destroy (device_destroy (gpio_free (gpio_set_value s 1))))

/-! ## Traces of file operations -/

/-- One call delivered by the character-device layer. -/
inductive Op where
  | open_call
  | write_call (user : Option (Fin 256)) (size : Nat)
  | release_call
  deriving DecidableEq, Repr

/-- Run one call: its return value and the state after it. -/
def step (s : State) : Op → Int × State
  | Op.open_call => led_open s
  | Op.write_call user size => led_write s user size
  | Op.release_call => led_release s

/-- Run a sequence of calls, collecting the return values in order. -/
def run (s : State) : List Op → List Int × State
  | [] => ([], s)
  | op :: ops =>
    let r := step s op
    let rest := run r.2 ops
    (r.1 :: rest.1, rest.2)

/-- The character-device layer calls `release` once per file whose `open`
returned `0`.  `paired n s ops` checks that along `ops`, started in `s` with
`n` such files outstanding, every `release` has an outstanding file. -/
def paired (n : Nat) (s : State) : List Op → Bool
  | [] => true
  | Op.open_call :: ops =>
    paired (if (led_open s).1 = 0 then n + 1 else n) (led_open s).2 ops
  | Op.write_call user size :: ops => paired n (led_write s user size).2 ops
  | Op.release_call :: ops => decide (0 < n) && paired (n - 1) (led_release s).2 ops

/-- The calls `write(user, size)` for a list of payloads, in order. -/
def writes (ws : List (Option (Fin 256) × Nat)) : List Op :=
  ws.map (fun w => Op.write_call w.1 w.2)

/-- Power-on state of the module: zeroed `led_dev`, nothing held, the line
at the given level. -/
def boot (level : Int) : State :=
  { dev := { major := 0, minor := 0, devid := 0, led_gpio := 0, dev_status := 0 },
    kernel := { chrdev_region := false, cdev := false, cls := false, device := false,
                gpio_requested := false, gpio_output := false, gpio_level := level,
                released := [] } }

/-- Every fallible step of `led_init` succeeds under `p`. -/
def Probe.all_ok (p : Probe) : Prop :=
  p.chrdev_region_errno = 0 ∧ p.cdev_add_errno = 0 ∧ p.class_is_err = false ∧
  p.device_is_err = false ∧ p.node_found = true ∧ 0 ≤ p.named_gpio ∧
  p.gpio_request_errno = 0 ∧ p.gpio_direction_output_errno = 0

instance (p : Probe) : Decidable p.all_ok := by
  unfold Probe.all_ok
  infer_instance

/-- A probe in which every service succeeds. -/
def probe_ok : Probe :=
  { chrdev_region_errno := 0, devid := MKDEV 249 0, cdev_add_errno := 0,
    class_is_err := false, device_is_err := false, node_found := true,
    named_gpio := 3, gpio_request_errno := 0, gpio_direction_output_errno := 0 }

/-! ## Basic facts about the file operations -/

theorem wrap_int_one : wrap_int 1 = 1 := by decide

theorem wrap_int_zero : wrap_int 0 = 0 := by decide

theorem led_open_idle (s : State) (h : s.dev.dev_status = 0) :
    led_open s = (0, { s with dev := { s.dev with dev_status := 1 } }) := by
  simp [led_open, h, wrap_int_one]

theorem led_open_busy (s : State) (h : s.dev.dev_status ≠ 0) :
    led_open s = (-EBUSY, s) := by
  simp [led_open, h]

theorem led_open_kernel (s : State) : (led_open s).2.kernel = s.kernel := by
  unfold led_open
  split_ifs <;> rfl

theorem led_write_dev (s : State) (user : Option (Fin 256)) (size : Nat) :
    (led_write s user size).2.dev = s.dev := by
  unfold led_write
  cases user with
  | none => simp [copy_from_user]
  | some b =>
    simp only [copy_from_user]
    split_ifs <;> rfl

theorem led_write_on (s : State) (size : Nat) :
    led_write s (some 1) size = (0, gpio_set_value s 0) := by
  simp [led_write, copy_from_user, LED_ON, LED_OFF]

theorem led_write_off (s : State) (size : Nat) :
    led_write s (some 0) size = (0, gpio_set_value s 1) := by
  simp [led_write, copy_from_user, LED_ON, LED_OFF]

theorem led_release_kernel (s : State) : (led_release s).2.kernel = s.kernel := rfl

theorem led_release_ret (s : State) : (led_release s).1 = 0 := rfl

theorem led_release_held (s : State) (h : s.dev.dev_status = 1) :
    (led_release s).2.dev.dev_status = 0 := by
  simp [led_release, h, wrap_int_zero]

/-! ## Session controller: single operations -/

/-- C1: `led_open` is an immediate single-admission gate.  When `dev_status`
is 0 it becomes 1 and the call returns 0; when `dev_status` is 1 the call
returns `-EBUSY` and `dev_status` keeps its value; in both cases the kernel
side, hence the control line level, is unchanged. -/
theorem led_open_single_admission (s : State) :
    (s.dev.dev_status = 0 →
      (led_open s).1 = 0 ∧ (led_open s).2.dev.dev_status = 1) ∧
    (s.dev.dev_status = 1 →
      (led_open s).1 = -EBUSY ∧ (led_open s).2.dev.dev_status = s.dev.dev_status) ∧
    (led_open s).2.kernel = s.kernel ∧
    (led_open s).2.kernel.gpio_level = s.kernel.gpio_level := by
  refine ⟨fun h => ?_, fun h => ?_, led_open_kernel s, ?_⟩
  · rw [led_open_idle s h]
    exact ⟨rfl, rfl⟩
  · have hne : s.dev.dev_status ≠ 0 := by rw [h]; decide
    rw [led_open_busy s hne]
    exact ⟨rfl, rfl⟩
  · rw [led_open_kernel s]

/-- Witness for C1 on an idle device and on a held device. -/
theorem led_open_single_admission_witness :
    ((led_open (boot 1)).1 = 0 ∧ (led_open (boot 1)).2.dev.dev_status = 1) ∧
    ((led_open (led_open (boot 1)).2).1 = -EBUSY ∧
      (led_open (led_open (boot 1)).2).2.dev.dev_status = (led_open (boot 1)).2.dev.dev_status) :=
  ⟨(led_open_single_admission (boot 1)).1 (by decide),
   (led_open_single_admission (led_open (boot 1)).2).2.1 (by decide)⟩

/-- C4 as stated fails: a successful `led_write` of the valid command 1
returns 0, not the byte count 1. -/
theorem led_write_returns_count_counterexample :
    (led_write (boot 1) (some 1) 1).1 = 0 ∧ (led_write (boot 1) (some 1) 1).1 ≠ 1 := by
  decide

/-- C4 (amended): for every state, every command byte in {0, 1} that is
copied successfully, and every `size`, `led_write` returns 0. -/
theorem led_write_success_returns_zero (s : State) (c : Fin 256) (size : Nat)
    (hc : c = 0 ∨ c = 1) : (led_write s (some c) size).1 = 0 := by
  rcases hc with h | h
  · rw [h, led_write_off]
  · rw [h, led_write_on]

/-- Witness for C4 (amended) at command 0. -/
theorem led_write_success_returns_zero_witness :
    ((0 : Fin 256) = 0 ∨ (0 : Fin 256) = 1) ∧ (led_write (boot 0) (some 0) 1).1 = 0 :=
  ⟨Or.inl rfl, led_write_success_returns_zero (boot 0) 0 1 (Or.inl rfl)⟩

/-- C5: a command byte outside {0, 1} is rejected with `-EFAULT` and the
whole state, in particular the line level and `dev_status`, is as before. -/
theorem led_write_invalid_rejected (s : State) (c : Fin 256) (size : Nat)
    (h0 : c ≠ 0) (h1 : c ≠ 1) :
    (led_write s (some c) size).1 = -EFAULT ∧
    (led_write s (some c) size).2 = s ∧
    (led_write s (some c) size).2.kernel.gpio_level = s.kernel.gpio_level ∧
    (led_write s (some c) size).2.dev.dev_status = s.dev.dev_status := by
  have hv0 : c.val ≠ LED_OFF := fun h => h0 (Fin.ext h)
  have hv1 : c.val ≠ LED_ON := fun h => h1 (Fin.ext h)
  have hw : led_write s (some c) size = (-EFAULT, s) := by
    simp [led_write, copy_from_user, hv0, hv1]
  rw [hw]
  exact ⟨rfl, rfl, rfl, rfl⟩

/-- Witness for C5 at command byte 7 on a held device with the line low. -/
theorem led_write_invalid_rejected_witness :
    (led_write (led_write (led_open (boot 1)).2 (some 1) 1).2 (some 7) 1).1 = -EFAULT ∧
    (led_write (led_write (led_open (boot 1)).2 (some 1) 1).2 (some 7) 1).2
      = (led_write (led_open (boot 1)).2 (some 1) 1).2 ∧
    (led_write (led_write (led_open (boot 1)).2 (some 1) 1).2 (some 7) 1).2.kernel.gpio_level
      = (led_write (led_open (boot 1)).2 (some 1) 1).2.kernel.gpio_level ∧
    (led_write (led_write (led_open (boot 1)).2 (some 1) 1).2 (some 7) 1).2.dev.dev_status
      = (led_write (led_open (boot 1)).2 (some 1) 1).2.dev.dev_status :=
  led_write_invalid_rejected (led_write (led_open (boot 1)).2 (some 1) 1).2 7 1
    (by decide) (by decide)

/-- C6: inverted polarity.  After `led_write` of 1 the line is low (0), after
`led_write` of 0 it is high (1), whatever it was before, and the three writes
1, 0, 1 in a row leave the line low, high, low in that order. -/
theorem led_write_inverted_polarity (s : State) (n1 n2 n3 : Nat) :
    (led_write s (some 1) n1).2.kernel.gpio_level = 0 ∧
    (led_write s (some 0) n1).2.kernel.gpio_level = 1 ∧
    (led_write s (some 1) n1).2.kernel.gpio_level = 0 ∧
    (led_write (led_write s (some 1) n1).2 (some 0) n2).2.kernel.gpio_level = 1 ∧
    (led_write (led_write (led_write s (some 1) n1).2 (some 0) n2).2
      (some 1) n3).2.kernel.gpio_level = 0 := by
  simp only [led_write_on, led_write_off]
  exact ⟨rfl, rfl, rfl, rfl, rfl⟩

/-- C8: `led_exit` forces the safe state whatever the session state: the line
is left high (1) and the line reservation is released, exactly once. -/
theorem led_exit_safe_state (s : State) :
    (led_exit s).kernel.gpio_level = 1 ∧
    (led_exit s).kernel.gpio_requested = false ∧
    Resource.gpio ∉ held (led_exit s).kernel ∧
    (led_exit s).kernel.released =
      [Resource.chrdev_region, Resource.cls, Resource.device, Resource.gpio]
        ++ s.kernel.released := by
  refine ⟨rfl, rfl, ?_, rfl⟩
  simp [led_exit, held, unregister_chrdev_region, class_destroy, device_destroy, gpio_free,
    gpio_set_value]

/-! ## Attach -/

/-- When `led_init` returns 0 every step succeeded. -/
theorem led_init_ret_zero (p : Probe) (s0 : State) (h : (led_init p s0).1 = 0) :
    p.all_ok := by
  by_cases h1 : p.chrdev_region_errno = 0
  swap
  · exfalso
    by_cases hm : s0.dev.major = 0 <;>
      simp [led_init, alloc_chrdev_region, register_chrdev_region, fail_region, h1, hm,
        Nat.pos_of_ne_zero h1] at h
  by_cases h2 : p.cdev_add_errno = 0
  swap
  · exfalso
    by_cases hm : s0.dev.major = 0 <;>
      simp [led_init, alloc_chrdev_region, register_chrdev_region, fail_region, h1, hm,
        cdev_add, fail_cdev_add, h2, Nat.pos_of_ne_zero h2] at h
  by_cases h3 : p.class_is_err = false
  swap
  · exfalso
    by_cases hm : s0.dev.major = 0 <;>
      simp [led_init, alloc_chrdev_region, register_chrdev_region, fail_region, h1, hm,
        cdev_add, fail_cdev_add, h2, class_create, fail_class_create, h3, EFAULT] at h
  by_cases h4 : p.device_is_err = false
  swap
  · exfalso
    by_cases hm : s0.dev.major = 0 <;>
      simp [led_init, alloc_chrdev_region, register_chrdev_region, fail_region, h1, hm,
        cdev_add, fail_cdev_add, h2, class_create, fail_class_create, h3, EFAULT,
        device_create, fail_device_create, h4] at h
  by_cases h5 : p.node_found = true
  swap
  · exfalso
    by_cases hm : s0.dev.major = 0 <;>
      simp [led_init, alloc_chrdev_region, register_chrdev_region, fail_region, h1, hm,
        cdev_add, fail_cdev_add, h2, class_create, fail_class_create, h3, EFAULT,
        device_create, fail_device_create, h4, fail_find_node, h5] at h
  by_cases h6 : 0 ≤ p.named_gpio
  swap
  · exfalso
    by_cases hm : s0.dev.major = 0 <;>
      simp [led_init, alloc_chrdev_region, register_chrdev_region, fail_region, h1, hm,
        cdev_add, fail_cdev_add, h2, class_create, fail_class_create, h3, EFAULT,
        device_create, fail_device_create, h4, fail_find_node, h5, fail_get_named,
        lt_of_not_ge h6] at h
  by_cases h7 : p.gpio_request_errno = 0
  swap
  · exfalso
    by_cases hm : s0.dev.major = 0 <;>
      simp [led_init, alloc_chrdev_region, register_chrdev_region, fail_region, h1, hm,
        cdev_add, fail_cdev_add, h2, class_create, fail_class_create, h3, EFAULT,
        device_create, fail_device_create, h4, fail_find_node, h5, fail_get_named,
        not_lt.mpr h6, gpio_request, fail_request, h7] at h
  by_cases h8 : p.gpio_direction_output_errno = 0
  swap
  · exfalso
    by_cases hm : s0.dev.major = 0 <;>
      simp [led_init, alloc_chrdev_region, register_chrdev_region, fail_region, h1, hm,
        cdev_add, fail_cdev_add, h2, class_create, fail_class_create, h3, EFAULT,
        device_create, fail_device_create, h4, fail_find_node, h5, fail_get_named,
        not_lt.mpr h6, gpio_request, fail_request, h7, gpio_direction_output, fail_dir_set,
        h8, Nat.pos_of_ne_zero h8] at h
  exact ⟨h1, h2, h3, h4, h5, h6, h7, h8⟩

/-- When every step succeeds `led_init` returns 0 with the line reserved,
configured as an output and high, every resource held and `dev_status` 0. -/
theorem led_init_all_ok (p : Probe) (s0 : State) (h : p.all_ok) :
    (led_init p s0).1 = 0 ∧
    (led_init p s0).2.kernel.gpio_requested = true ∧
    (led_init p s0).2.kernel.gpio_output = true ∧
    (led_init p s0).2.kernel.gpio_level = 1 ∧
    (led_init p s0).2.dev.dev_status = 0 := by
  obtain ⟨h1, h2, h3, h4, h5, h6, h7, h8⟩ := h
  by_cases hm : s0.dev.major = 0 <;>
    simp [led_init, alloc_chrdev_region, register_chrdev_region, h1, hm,
      cdev_add, h2, class_create, h3, device_create, h4, h5,
      not_lt.mpr h6, gpio_request, h7, gpio_direction_output, h8, gpio_set_value]

/-- A freshly attached device is idle. -/
theorem led_init_idle (p : Probe) (s0 : State) (h : (led_init p s0).1 = 0) :
    (led_init p s0).2.dev.dev_status = 0 :=
  (led_init_all_ok p s0 (led_init_ret_zero p s0 h)).2.2.2.2

/-- C7, the failing input: `class_create` fails after the region and the cdev
were acquired.  `led_init` returns `-EFAULT` having released the region
only; the cdev added by `cdev_add` is still held. -/
theorem led_init_class_create_failure_keeps_cdev :
    (led_init { probe_ok with class_is_err := true } (boot 1)).1 = -EFAULT ∧
    held (led_init { probe_ok with class_is_err := true } (boot 1)).2.kernel
      = [Resource.cdev] ∧
    (led_init { probe_ok with class_is_err := true } (boot 1)).2.kernel.released
      = [Resource.chrdev_region] := by
  decide

/-- After a failed `led_init` from the power-on state, every resource other
than the cdev has been released; the cdev is still held exactly when
`cdev_add` had succeeded. -/
theorem led_init_failure_held (p : Probe) (level : Int)
    (h : (led_init p (boot level)).1 ≠ 0) :
    held (led_init p (boot level)).2.kernel =
      if p.chrdev_region_errno = 0 ∧ p.cdev_add_errno = 0 then [Resource.cdev] else [] := by
  by_cases h1 : p.chrdev_region_errno = 0
  swap
  · simp [led_init, alloc_chrdev_region, fail_region, h1, boot, held,
      Nat.pos_of_ne_zero h1]
  by_cases h2 : p.cdev_add_errno = 0
  swap
  · simp [led_init, alloc_chrdev_region, fail_region, h1, boot, held,
      cdev_add, fail_cdev_add, h2, Nat.pos_of_ne_zero h2, unregister_chrdev_region]
  by_cases h3 : p.class_is_err = false
  swap
  · simp [led_init, alloc_chrdev_region, fail_region, h1, boot, held,
      cdev_add, fail_cdev_add, h2, unregister_chrdev_region, class_create,
      fail_class_create, h3]
  by_cases h4 : p.device_is_err = false
  swap
  · simp [led_init, alloc_chrdev_region, fail_region, h1, boot, held,
      cdev_add, fail_cdev_add, h2, unregister_chrdev_region, class_create,
      fail_class_create, h3, device_create, fail_device_create, class_destroy, h4]
  by_cases h5 : p.node_found = true
  swap
  · simp [led_init, alloc_chrdev_region, fail_region, h1, boot, held,
      cdev_add, fail_cdev_add, h2, unregister_chrdev_region, class_create,
      fail_class_create, h3, device_create, fail_device_create, class_destroy, h4,
      fail_find_node, device_destroy, h5]
  by_cases h6 : 0 ≤ p.named_gpio
  swap
  · simp [led_init, alloc_chrdev_region, fail_region, h1, boot, held,
      cdev_add, fail_cdev_add, h2, unregister_chrdev_region, class_create,
      fail_class_create, h3, device_create, fail_device_create, class_destroy, h4,
      fail_find_node, device_destroy, h5, fail_get_named, lt_of_not_ge h6]
  by_cases h7 : p.gpio_request_errno = 0
  swap
  · simp [led_init, alloc_chrdev_region, fail_region, h1, boot, held,
      cdev_add, fail_cdev_add, h2, unregister_chrdev_region, class_create,
      fail_class_create, h3, device_create, fail_device_create, class_destroy, h4,
      fail_find_node, device_destroy, h5, fail_get_named, not_lt.mpr h6,
      gpio_request, fail_request, h7]
  by_cases h8 : p.gpio_direction_output_errno = 0
  swap
  · simp [led_init, alloc_chrdev_region, fail_region, h1, boot, held,
      cdev_add, fail_cdev_add, h2, unregister_chrdev_region, class_create,
      fail_class_create, h3, device_create, fail_device_create, class_destroy, h4,
      fail_find_node, device_destroy, h5, fail_get_named, not_lt.mpr h6,
      gpio_request, fail_request, h7, gpio_direction_output, fail_dir_set, gpio_free,
      h8, Nat.pos_of_ne_zero h8]
  exact absurd (led_init_all_ok p (boot level) ⟨h1, h2, h3, h4, h5, h6, h7, h8⟩).1 h

/-! ## Sequences of calls -/

theorem run_opens_busy (s : State) (h : s.dev.dev_status ≠ 0) (n : Nat) :
    run s (List.replicate n Op.open_call) = (List.replicate n (-EBUSY), s) := by
  induction n with
  | zero => rfl
  | succ n ih => simp [List.replicate_succ, run, step, led_open_busy s h, ih]

theorem run_opens_idle (s : State) (h : s.dev.dev_status = 0) (n : Nat) :
    (run s (List.replicate (n + 1) Op.open_call)).1 = 0 :: List.replicate n (-EBUSY) := by
  have hb : ({ s with dev := { s.dev with dev_status := 1 } } : State).dev.dev_status ≠ 0 := by
    simp
  simp [List.replicate_succ, run, step, led_open_idle s h, run_opens_busy _ hb]

theorem run_writes_dev (ws : List (Option (Fin 256) × Nat)) (s : State) :
    (run s (writes ws)).2.dev = s.dev := by
  induction ws generalizing s with
  | nil => rfl
  | cons w ws ih =>
    have := ih (led_write s w.1 w.2).2
    simp only [writes, List.map_cons, run, step] at this ⊢
    rw [this, led_write_dev]

/-- Along a paired sequence the counter equals the number of outstanding
successful opens, which is at most one, at every point; and the rest of the
sequence is paired from there. -/
theorem paired_prefix (pre post : List Op) (n : Nat) (s : State)
    (hs : s.dev.dev_status = (n : Int)) (hn : n ≤ 1)
    (hp : paired n s (pre ++ post) = true) :
    ∃ m : Nat, m ≤ 1 ∧ (run s pre).2.dev.dev_status = (m : Int) ∧
      paired m (run s pre).2 post = true := by
  induction pre generalizing n s with
  | nil => exact ⟨n, hn, hs, hp⟩
  | cons op ops ih =>
    cases op with
    | open_call =>
      simp only [List.cons_append, paired] at hp
      simp only [run, step]
      by_cases h0 : s.dev.dev_status = 0
      · rw [led_open_idle s h0] at hp ⊢
        simp only [if_true] at hp
        have hn0 : n = 0 := by omega
        subst hn0
        exact ih 1 _ (by simp) (by omega) hp
      · rw [led_open_busy s h0] at hp ⊢
        have hne : ¬ (-EBUSY = 0) := by decide
        simp only [hne, if_false] at hp
        exact ih n s hs hn hp
    | write_call user size =>
      simp only [List.cons_append, paired] at hp
      simp only [run, step]
      exact ih n _ (by rw [led_write_dev]; exact hs) hn hp
    | release_call =>
      simp only [List.cons_append, paired, Bool.and_eq_true, decide_eq_true_eq] at hp
      simp only [run, step]
      have hn1 : n = 1 := by omega
      subst hn1
      exact ih 0 _ (by simpa using led_release_held s (by simpa using hs)) (by omega) hp.2

/-- C2: exclusivity.  Against a freshly attached device, any number `n` of
`led_open` calls with no `led_release` in between all return, at most one
of them returns 0, and every other one returns `-EBUSY`. -/
theorem led_open_exclusive (p : Probe) (s0 : State) (n : Nat)
    (h : (led_init p s0).1 = 0) :
    (run (led_init p s0).2 (List.replicate n Op.open_call)).1.length = n ∧
    (run (led_init p s0).2 (List.replicate n Op.open_call)).1.count 0 ≤ 1 ∧
    ∀ r ∈ (run (led_init p s0).2 (List.replicate n Op.open_call)).1, r = 0 ∨ r = -EBUSY := by
  have hidle := led_init_idle p s0 h
  cases n with
  | zero => simp [run]
  | succ n =>
    rw [run_opens_idle _ hidle n]
    refine ⟨by simp, ?_, ?_⟩
    · have hne : ¬ (-EBUSY = 0) := by decide
      simp [List.count_cons, List.count_replicate, hne]
    · intro r hr
      rcases List.mem_cons.mp hr with h0 | hrest
      · exact Or.inl h0
      · exact Or.inr (List.eq_of_mem_replicate hrest)

/-- Witness for C2: three opens against a freshly attached device. -/
theorem led_open_exclusive_witness :
    (led_init probe_ok (boot 0)).1 = 0 ∧
    (run (led_init probe_ok (boot 0)).2 (List.replicate 3 Op.open_call)).1 = [0, -EBUSY, -EBUSY] ∧
    (run (led_init probe_ok (boot 0)).2 (List.replicate 3 Op.open_call)).1.count 0 ≤ 1 :=
  ⟨by decide, by decide, (led_open_exclusive probe_ok (boot 0) 3 (by decide)).2.1⟩

/-- C3 as stated fails: `led_release` is an unguarded decrement.  On a freshly
attached device, whose `dev_status` is 0, one `led_release` leaves
`dev_status` at -1, outside {0, 1}. -/
theorem led_release_unguarded_counterexample :
    (led_init probe_ok (boot 1)).1 = 0 ∧
    (led_init probe_ok (boot 1)).2.dev.dev_status = 0 ∧
    (run (led_init probe_ok (boot 1)).2 [Op.release_call]).2.dev.dev_status = -1 ∧
    ¬ ((run (led_init probe_ok (boot 1)).2 [Op.release_call]).2.dev.dev_status = 0 ∨
       (run (led_init probe_ok (boot 1)).2 [Op.release_call]).2.dev.dev_status = 1) := by
  decide

/-- C3 (amended): start from the freshly attached state and take any finite
sequence of open, write and release calls in which each release is matched
by an earlier, not yet released, successful open.  At every point of the
sequence `dev_status` is 0 or 1, and every release in it finds `dev_status`
at 1 and leaves it at 0, so the counter never goes below 0. -/
theorem dev_status_zero_or_one (p : Probe) (s0 : State) (pre post : List Op)
    (h : (led_init p s0).1 = 0)
    (hp : paired 0 (led_init p s0).2 (pre ++ post) = true) :
    ((run (led_init p s0).2 pre).2.dev.dev_status = 0 ∨
      (run (led_init p s0).2 pre).2.dev.dev_status = 1) ∧
    (∀ tail : List Op, post = Op.release_call :: tail →
      (run (led_init p s0).2 pre).2.dev.dev_status = 1 ∧
      (led_release (run (led_init p s0).2 pre).2).2.dev.dev_status = 0) := by
  obtain ⟨m, hm, hst, hrest⟩ :=
    paired_prefix pre post 0 _ (by simpa using led_init_idle p s0 h) (by omega) hp
  refine ⟨by omega, ?_⟩
  intro tail htail
  subst htail
  simp only [paired, Bool.and_eq_true, decide_eq_true_eq] at hrest
  have hone : (run (led_init p s0).2 pre).2.dev.dev_status = 1 := by omega
  exact ⟨hone, led_release_held _ hone⟩

/-- Witness for C3 (amended): a paired sequence with a refused second open,
cut just before its release. -/
theorem dev_status_zero_or_one_witness :
    (led_init probe_ok (boot 1)).1 = 0 ∧
    paired 0 (led_init probe_ok (boot 1)).2
      ([Op.open_call, Op.write_call (some 1) 1, Op.open_call] ++
        [Op.release_call, Op.open_call]) = true ∧
    (run (led_init probe_ok (boot 1)).2
      [Op.open_call, Op.write_call (some 1) 1, Op.open_call]).2.dev.dev_status = 1 ∧
    (led_release (run (led_init probe_ok (boot 1)).2
      [Op.open_call, Op.write_call (some 1) 1, Op.open_call]).2).2.dev.dev_status = 0 :=
  ⟨by decide, by decide,
   (dev_status_zero_or_one probe_ok (boot 1)
     [Op.open_call, Op.write_call (some 1) 1, Op.open_call]
     [Op.release_call, Op.open_call] (by decide) (by decide)).2 [Op.open_call] rfl⟩

/-- C10: release re-opens.  From the freshly attached state, `led_open`
returns 0; after any number of `led_write` calls (valid commands included,
such as 1) `led_release` returns 0, leaves the kernel side and so the line
level as it was, and brings `dev_status` back to 0; a further `led_open`
then returns 0. -/
theorem led_release_reopens (p : Probe) (s0 : State) (ws : List (Option (Fin 256) × Nat))
    (h : (led_init p s0).1 = 0) :
    (led_open (led_init p s0).2).1 = 0 ∧
    (led_release (run (led_open (led_init p s0).2).2 (writes ws)).2).1 = 0 ∧
    (led_release (run (led_open (led_init p s0).2).2 (writes ws)).2).2.kernel.gpio_level
      = (run (led_open (led_init p s0).2).2 (writes ws)).2.kernel.gpio_level ∧
    (led_release (run (led_open (led_init p s0).2).2 (writes ws)).2).2.dev.dev_status = 0 ∧
    (led_open (led_release (run (led_open (led_init p s0).2).2 (writes ws)).2).2).1 = 0 := by
  have hidle := led_init_idle p s0 h
  have hheld : (run (led_open (led_init p s0).2).2 (writes ws)).2.dev.dev_status = 1 := by
    rw [run_writes_dev, led_open_idle _ hidle]
  have hback := led_release_held _ hheld
  refine ⟨?_, rfl, rfl, hback, ?_⟩
  · rw [led_open_idle _ hidle]
  · rw [led_open_idle _ hback]

/-- Witness for C10: open, write 1, release, open on a freshly attached device. -/
theorem led_release_reopens_witness :
    (led_init probe_ok (boot 1)).1 = 0 ∧
    (run (led_init probe_ok (boot 1)).2
      [Op.open_call, Op.write_call (some 1) 1, Op.release_call, Op.open_call]).1 = [0, 0, 0, 0] ∧
    (led_open (led_release (run (led_open (led_init probe_ok (boot 1)).2).2
      (writes [(some 1, 1)])).2).2).1 = 0 :=
  ⟨by decide, by decide,
   (led_release_reopens probe_ok (boot 1) [(some 1, 1)] (by decide)).2.2.2.2⟩

end Spinlock
